import Mathlib

/-!
Shallow embedding of the `utube-transcript` transcription orchestration layer
(`src/utube_transcript/transcriber.py`, `downloader.py`, `utils.py`).

Modelling conventions:
* Time values are modelled in integer milliseconds (`Nat`); every concrete
  time appearing in the specification (0.0 s, 1.5 s, 3.25 s, 3661.5 s) is an
  exact multiple of a millisecond, so the Python float arithmetic
  (`// 3600`, `% 3600`, `// 60`, `% 60`, `"{:06.3f}".format`) is exact on
  them and coincides with the `Nat` arithmetic below.
* The filesystem is a predicate `String → Bool` (`os.path.exists`).
* External engines (the OpenAI endpoint, the faster-whisper model, yt-dlp,
  `os.remove`) are black-box oracles passed as function arguments, following
  the specification's treatment of them as external collaborators.
* Python exceptions are modelled with `Except`; the distinct exception
  classes raised by the code become constructors of `TranscriberError`.
-/

/-- A timed segment as produced by the local whisper backend:
start and end time in milliseconds, plus the recognised text. -/
structure Segment where
  start : Nat
  «end» : Nat
  text : String
deriving DecidableEq, Repr

/-- The per-segment dictionary `{"start": ..., "end": ..., "text": ...}`
built by the `json` branch of `Transcriber._transcribe_local`. -/
structure SegmentJson where
  start : Nat
  «end» : Nat
  text : String
deriving DecidableEq, Repr

/-- `{"start": s.start, "end": s.end, "text": s.text}` for a segment `s`. -/
def segToJson (s : Segment) : SegmentJson :=
  { start := s.start, «end» := s.«end», text := s.text }

/-- Zero-pad the decimal representation of `n` to width `w`
(the behaviour of Python's `{:02d}` / zero-filled fixed-width formats). -/
def zeroPad (w : Nat) (n : Nat) : String :=
  let s := toString n
  String.mk (List.replicate (w - s.length) '0') ++ s

/-- `Transcriber._format_timestamp`: convert a time in milliseconds to the
SRT timestamp `HH:MM:SS.mmm`.  The Python source computes
`hours = seconds // 3600`, `minutes = (seconds % 3600) // 60`,
`seconds = seconds % 60` and formats with `{:02d}:{:02d}:{:06.3f}`;
on millisecond-exact inputs this is the integer arithmetic below, the
`{:06.3f}` field printing the remaining seconds as `SS.mmm`. -/
def format_timestamp (ms : Nat) : String :=
  let hours := ms / 3600000
  let minutes := (ms % 3600000) / 60000
  let rest := ms % 60000
  zeroPad 2 hours ++ ":" ++ zeroPad 2 minutes ++ ":" ++
    zeroPad 2 (rest / 1000) ++ "." ++ zeroPad 3 (rest % 1000)

/-- `utils.get_env_var(key, default)`: `os.getenv(key, default)` — the value
of the variable in the process environment `env`, or `default` when unset
(the `.env` loading only populates `env` and is part of the oracle). -/
def get_env_var (env : String → Option String) (key : String)
    (default : Option String) : Option String :=
  match env key with
  | some v => some v
  | none => default

/-- Python truthiness of an `Optional[str]`: `None` and `""` are falsy. -/
def optTruthy : Option String → Bool
  | none => false
  | some s => !(s == "")

/-- Python's `a or b` on `Optional[str]` values. -/
def pyOr (a b : Option String) : Option String :=
  if optTruthy a then a else b

/-- The exceptions the transcriber code can raise, by raise site:
`ValueError` for a missing API key, `ImportError` for a missing
faster-whisper dependency, `FileNotFoundError` for a missing audio file,
and `AttributeError` for reading the never-assigned `self.model`. -/
inductive TranscriberError where
  | missingCredential
  | missingDependency
  | audioNotFound (path : String)
  | attributeError
deriving DecidableEq, Repr

/-- The provider response object returned by `openai.Audio.transcribe`:
this integration only consumes its `text` field. -/
structure OpenAIResponse where
  text : String
deriving DecidableEq, Repr

/-- A transcription result: a plain string (txt/srt shapes), the
`{"segments": [...]}` dictionary (local json shape), or the raw provider
response object (openai json shape). -/
inductive Output where
  | text : String → Output
  | jsonSegments : List SegmentJson → Output
  | jsonRaw : OpenAIResponse → Output
deriving DecidableEq, Repr

/-- The state built by `Transcriber.__init__`: the backend selector and
language, the resolved `self.api_key` (openai branch only), and whether
`self.model` was assigned (local branch only). -/
structure Transcriber where
  backend : String
  language : Option String
  api_key : Option String
  model : Bool
deriving DecidableEq, Repr

/-- `Transcriber.__init__(backend, api_key, language)`.  The `openai` branch
resolves `api_key or get_env_var("OPENAI_API_KEY")` and raises `ValueError`
when the result is falsy; the `local` branch imports faster-whisper and
assigns `self.model`, raising `ImportError` when unavailable; any other
backend string takes neither branch and constructs without validation. -/
def Transcriber.init (backend : String) (api_key : Option String)
    (language : Option String) (env : String → Option String)
    (fasterWhisperAvailable : Bool) : Except TranscriberError Transcriber :=
  if backend == "openai" then
    let key := pyOr api_key (get_env_var env "OPENAI_API_KEY" none)
    if optTruthy key then
      .ok { backend := backend, language := language, api_key := key, model := false }
    else .error .missingCredential
  else if backend == "local" then
    if fasterWhisperAvailable then
      .ok { backend := backend, language := language, api_key := none, model := true }
    else .error .missingDependency
  else
    .ok { backend := backend, language := language, api_key := none, model := false }

/-- Python's `str.strip()`: drop whitespace from both ends, written as
structural recursion over the character list. -/
def pyStrip (s : String) : String :=
  String.mk
    (((s.data.dropWhile Char.isWhitespace).reverse.dropWhile
        Char.isWhitespace).reverse)

/-- The flat line list built by the SRT loop of `_transcribe_local`:
for each segment (1-based index `i`) it extends the list with
`str(i)`, `"<start> --> <end>"`, the stripped text, and `""`. -/
def srt_lines (i : Nat) : List Segment → List String
  | [] => []
  | s :: rest =>
    toString i ::
    (format_timestamp s.start ++ " --> " ++ format_timestamp s.«end») ::
    pyStrip s.text ::
    "" :: srt_lines (i + 1) rest

/-- `Transcriber._transcribe_local(audio_path, output_format)` given the
segment sequence the whisper model returns.  Reading `self.model` on an
instance that never assigned it raises `AttributeError` before anything
else; the `json` shape builds `{"segments": [...]}`; otherwise the texts
are joined with `" ".join`, returned for `txt`, and every other format
falls through to the SRT loop joined with `"\n".join`. -/
def Transcriber.transcribe_local (t : Transcriber) (segments : List Segment)
    (output_format : String) : Except TranscriberError Output :=
  if !t.model then .error .attributeError
  else if output_format == "json" then
    .ok (.jsonSegments (segments.map segToJson))
  else
    let text := String.intercalate " " (segments.map Segment.text)
    if output_format == "txt" then .ok (.text text)
    else .ok (.text (String.intercalate "\n" (srt_lines 1 segments)))

/-- `Transcriber._transcribe_openai(audio_path, output_format)` given a
successful provider response: the `json` shape returns the raw response
object, every other shape returns `transcript.text`. -/
def Transcriber.transcribe_openai (t : Transcriber) (resp : OpenAIResponse)
    (output_format : String) : Output :=
  if output_format == "json" then .jsonRaw resp
  else .text resp.text

deriving instance DecidableEq for Except

/-- The outcome of one `transcribe` call, instrumented with whether a
backend engine (the OpenAI endpoint or the whisper model) was invoked. -/
structure TranscribeTrace where
  result : Except TranscriberError Output
  backendInvoked : Bool
deriving DecidableEq, Repr

/-- `Transcriber.transcribe(audio_path, output_format)`: the eager
`os.path.exists` check raises `FileNotFoundError` first; then the call is
dispatched on `self.backend == "openai"`, every other backend value going
to the local branch.  `backendInvoked` records whether an engine call
happened (the `AttributeError` in the local branch fires before the model
is invoked). -/
def Transcriber.transcribe (t : Transcriber) (fs : String → Bool)
    (audio_path : String) (output_format : String)
    (resp : OpenAIResponse) (segments : List Segment) : TranscribeTrace :=
  if !(fs audio_path) then
    { result := .error (.audioNotFound audio_path), backendInvoked := false }
  else if t.backend == "openai" then
    { result := .ok (t.transcribe_openai resp output_format), backendInvoked := true }
  else
    match t.transcribe_local segments output_format with
    | .error e => { result := .error e, backendInvoked := false }
    | .ok o => { result := .ok o, backendInvoked := true }

/-- C5: the subtitle timestamp formatter maps a non-negative time to a
zero-padded `HH:MM:SS.mmm` string: every input decomposes uniquely as
`h` hours, `m` minutes, `s` seconds, `x` milliseconds with `m, s < 60`,
`x < 1000`, and the output is exactly the zero-padded rendering of that
decomposition; in particular 3661.5 s ↦ `"01:01:01.500"` and
0.0 s ↦ `"00:00:00.000"`. -/
theorem format_timestamp_spec :
    (∀ t : Nat, ∃ h m s x : Nat,
      t = ((h * 60 + m) * 60 + s) * 1000 + x ∧ m < 60 ∧ s < 60 ∧ x < 1000 ∧
      format_timestamp t =
        zeroPad 2 h ++ ":" ++ zeroPad 2 m ++ ":" ++ zeroPad 2 s ++ "." ++ zeroPad 3 x) ∧
    format_timestamp 3661500 = "01:01:01.500" ∧
    format_timestamp 0 = "00:00:00.000" := by
  refine ⟨fun t => ⟨t / 3600000, (t % 3600000) / 60000, t % 60000 / 1000, t % 1000,
    ?_, ?_, ?_, ?_, ?_⟩, by decide, by decide⟩
  · omega
  · omega
  · omega
  · omega
  · have hx : t % 60000 % 1000 = t % 1000 := by omega
    simp [format_timestamp, hx]

/-- C2: for every backend selector and every output shape, `transcribe` on
an audio path that does not exist raises `FileNotFoundError`
(`AudioNotFound`) and no backend call occurs. -/
theorem transcribe_missing_audio (t : Transcriber) (fs : String → Bool)
    (audio_path output_format : String) (resp : OpenAIResponse)
    (segments : List Segment) (h : fs audio_path = false) :
    t.transcribe fs audio_path output_format resp segments =
      { result := .error (.audioNotFound audio_path), backendInvoked := false } := by
  simp [Transcriber.transcribe, h]

/-- Witness for C2 at a concrete transcriber, path and shape. -/
theorem transcribe_missing_audio_witness :
    (Transcriber.mk "local" none none true).transcribe (fun _ => false)
      "missing.mp3" "txt" ⟨"hi"⟩ [] =
      { result := .error (.audioNotFound "missing.mp3"), backendInvoked := false } :=
  transcribe_missing_audio _ _ _ _ _ _ rfl

/-- C3: constructing the openai-backend orchestrator resolves the
credential explicit-argument first, then the environment variable; with no
truthy credential anywhere it fails with `MissingCredential` (and no
network call is modelled at construction), and a truthy credential from
either source makes construction succeed with that credential. -/
theorem init_openai_credential_resolution (api_key : Option String)
    (language : Option String) (env : String → Option String) (fw : Bool) :
    (optTruthy api_key = false →
      optTruthy (get_env_var env "OPENAI_API_KEY" none) = false →
      Transcriber.init "openai" api_key language env fw = .error .missingCredential) ∧
    (optTruthy api_key = true →
      Transcriber.init "openai" api_key language env fw =
        .ok { backend := "openai", language := language,
              api_key := api_key, model := false }) ∧
    (optTruthy api_key = false →
      optTruthy (get_env_var env "OPENAI_API_KEY" none) = true →
      Transcriber.init "openai" api_key language env fw =
        .ok { backend := "openai", language := language,
              api_key := get_env_var env "OPENAI_API_KEY" none, model := false }) := by
  refine ⟨fun h1 h2 => ?_, fun h => ?_, fun h1 h2 => ?_⟩ <;>
    simp [Transcriber.init, pyOr, *]

/-- Witness for C3: no credential anywhere fails; an explicit key wins over
the environment; an environment key alone succeeds. -/
theorem init_openai_credential_resolution_witness :
    Transcriber.init "openai" none none (fun _ => none) false =
      .error .missingCredential ∧
    Transcriber.init "openai" (some "sk-test") none (fun _ => some "env-key") false =
      .ok { backend := "openai", language := none,
            api_key := some "sk-test", model := false } ∧
    Transcriber.init "openai" none none
      (fun k => if k == "OPENAI_API_KEY" then some "env-key" else none) false =
      .ok { backend := "openai", language := none,
            api_key := some "env-key", model := false } := by
  refine ⟨?_, ?_, ?_⟩
  · exact (init_openai_credential_resolution none none (fun _ => none) false).1 rfl rfl
  · exact (init_openai_credential_resolution (some "sk-test") none
      (fun _ => some "env-key") false).2.1 rfl
  · exact (init_openai_credential_resolution none none
      (fun k => if k == "OPENAI_API_KEY" then some "env-key" else none) false).2.2 rfl rfl

/-- C4: on the local backend, the `txt` shape is the segment texts joined
with single spaces and no timing, and the `json` shape is
`{"segments": [...]}` with one `{start, end, text}` entry per segment in
input order; in particular the example segments yield `"hello world"` and
the corresponding two-entry segment list. -/
theorem transcribe_local_txt_json (t : Transcriber) (fs : String → Bool)
    (audio_path : String) (resp : OpenAIResponse) (segments : List Segment)
    (hb : t.backend = "local") (hm : t.model = true) (hfs : fs audio_path = true) :
    (t.transcribe fs audio_path "txt" resp segments).result =
      .ok (.text (String.intercalate " " (segments.map Segment.text))) ∧
    (t.transcribe fs audio_path "json" resp segments).result =
      .ok (.jsonSegments (segments.map segToJson)) ∧
    (t.transcribe fs audio_path "txt" resp
        [⟨0, 1500, "hello"⟩, ⟨1500, 3250, "world"⟩]).result =
      .ok (.text "hello world") ∧
    (t.transcribe fs audio_path "json" resp
        [⟨0, 1500, "hello"⟩, ⟨1500, 3250, "world"⟩]).result =
      .ok (.jsonSegments [⟨0, 1500, "hello"⟩, ⟨1500, 3250, "world"⟩]) := by
  refine ⟨?_, ?_, ?_, ?_⟩ <;>
    simp [Transcriber.transcribe, Transcriber.transcribe_local, segToJson,
      hb, hm, hfs] <;> rfl

/-- Witness for C4 at a concrete local-backend transcriber. -/
theorem transcribe_local_txt_json_witness :
    ((Transcriber.mk "local" none none true).transcribe (fun _ => true)
        "a.mp3" "txt" ⟨"r"⟩ [⟨0, 1500, "hello"⟩, ⟨1500, 3250, "world"⟩]).result =
      .ok (.text "hello world") ∧
    ((Transcriber.mk "local" none none true).transcribe (fun _ => true)
        "a.mp3" "json" ⟨"r"⟩ [⟨0, 1500, "hello"⟩, ⟨1500, 3250, "world"⟩]).result =
      .ok (.jsonSegments [⟨0, 1500, "hello"⟩, ⟨1500, 3250, "world"⟩]) := by
  have h := transcribe_local_txt_json (Transcriber.mk "local" none none true)
    (fun _ => true) "a.mp3" ⟨"r"⟩ [⟨0, 1500, "hello"⟩, ⟨1500, 3250, "world"⟩]
    rfl rfl rfl
  exact ⟨h.2.2.1, h.2.2.2⟩

/-- C10: on the openai backend, the `txt` and `srt` shapes return the
identical value — the provider's `text` field — for every audio input,
language and provider response: the `srt` shape performs no subtitle
formatting on this backend. -/
theorem transcribe_openai_txt_eq_srt (t : Transcriber) (fs : String → Bool)
    (audio_path : String) (resp : OpenAIResponse) (segments : List Segment)
    (hb : t.backend = "openai") (hfs : fs audio_path = true) :
    t.transcribe fs audio_path "txt" resp segments =
      t.transcribe fs audio_path "srt" resp segments ∧
    (t.transcribe fs audio_path "srt" resp segments).result =
      .ok (.text resp.text) := by
  constructor <;>
    simp [Transcriber.transcribe, Transcriber.transcribe_openai, hb, hfs]

/-- Witness for C10 at a concrete openai-backend transcriber. -/
theorem transcribe_openai_txt_eq_srt_witness :
    (Transcriber.mk "openai" none (some "k") false).transcribe (fun _ => true)
        "a.mp3" "txt" ⟨"the text"⟩ [] =
      (Transcriber.mk "openai" none (some "k") false).transcribe (fun _ => true)
        "a.mp3" "srt" ⟨"the text"⟩ [] ∧
    ((Transcriber.mk "openai" none (some "k") false).transcribe (fun _ => true)
        "a.mp3" "srt" ⟨"the text"⟩ []).result = .ok (.text "the text") :=
  transcribe_openai_txt_eq_srt (Transcriber.mk "openai" none (some "k") false)
    (fun _ => true) "a.mp3" ⟨"the text"⟩ [] rfl rfl

/-- C9: constructing a `Transcriber` with any backend string other than
`"openai"` and `"local"` (for example `"ollama"`) succeeds without any
validation, and a `transcribe` call on such an instance is dispatched to
the local-model branch (`_transcribe_local`). -/
theorem init_other_backend_local_dispatch (b : String) (hb1 : b ≠ "openai")
    (hb2 : b ≠ "local") (api_key language : Option String)
    (env : String → Option String) (fw : Bool) :
    Transcriber.init b api_key language env fw =
      .ok { backend := b, language := language, api_key := none, model := false } ∧
    (∀ (t : Transcriber) (fs : String → Bool) (audio_path output_format : String)
        (resp : OpenAIResponse) (segments : List Segment),
      t.backend = b → fs audio_path = true →
      t.transcribe fs audio_path output_format resp segments =
        (match t.transcribe_local segments output_format with
          | .error e => { result := .error e, backendInvoked := false }
          | .ok o => { result := .ok o, backendInvoked := true })) := by
  constructor
  · simp [Transcriber.init, hb1, hb2]
  · intro t fs audio_path output_format resp segments ht hfs
    simp [Transcriber.transcribe, ht, hb1, hfs]

/-- Witness for C9 at backend string `"ollama"`. -/
theorem init_other_backend_local_dispatch_witness :
    Transcriber.init "ollama" none none (fun _ => none) false =
      .ok { backend := "ollama", language := none, api_key := none, model := false } ∧
    (Transcriber.mk "ollama" none none false).transcribe (fun _ => true)
        "a.mp3" "txt" ⟨"r"⟩ [] =
      (match (Transcriber.mk "ollama" none none false).transcribe_local [] "txt" with
        | .error e => { result := .error e, backendInvoked := false }
        | .ok o => { result := .ok o, backendInvoked := true }) := by
  have h := init_other_backend_local_dispatch "ollama" (by decide) (by decide)
    none none (fun _ => none) false
  exact ⟨h.1, h.2 (Transcriber.mk "ollama" none none false) (fun _ => true)
    "a.mp3" "txt" ⟨"r"⟩ [] rfl rfl⟩

/-- Separator-join: the direct recursive reading of Python's
`sep.join(lines)`, used to characterise `String.intercalate`. -/
def joinSep (sep : String) : List String → String
  | [] => ""
  | a :: rest =>
    match rest with
    | [] => a
    | _ :: _ => a ++ sep ++ joinSep sep rest

/-- The accumulator worker of `String.intercalate` computes `joinSep` of
the remaining lines, prefixed by the accumulator and a separator. -/
theorem intercalate_go_eq (sep : String) (as : List String) :
    ∀ acc : String,
      String.intercalate.go acc sep as =
        match as with
        | [] => acc
        | _ :: _ => acc ++ sep ++ joinSep sep as := by
  induction as with
  | nil => intro acc; rfl
  | cons a as ih =>
    intro acc
    show String.intercalate.go (acc ++ sep ++ a) sep as = _
    rw [ih (acc ++ sep ++ a)]
    cases as with
    | nil => simp [joinSep]
    | cons b bs => simp [joinSep, String.append_assoc]

/-- `String.intercalate` agrees with the recursive `joinSep`. -/
theorem intercalate_eq_joinSep (sep : String) (l : List String) :
    String.intercalate sep l = joinSep sep l := by
  cases l with
  | nil => rfl
  | cons a as =>
    show String.intercalate.go a sep as = _
    rw [intercalate_go_eq]
    cases as with
    | nil => rfl
    | cons b bs => simp [joinSep]

/-- The full SRT block of one segment at 1-based index `i`:
`<index>\n<start> --> <end>\n<stripped text>\n\n`. -/
def srtBlock (i : Nat) (s : Segment) : String :=
  toString i ++ "\n" ++ format_timestamp s.start ++ " --> " ++
    format_timestamp s.«end» ++ "\n" ++ pyStrip s.text ++ "\n" ++ "\n"

/-- The concatenation of the SRT blocks of a segment list, indices
counting up from `i`. -/
def srtConcatBlocks (i : Nat) : List Segment → String
  | [] => ""
  | s :: rest => srtBlock i s ++ srtConcatBlocks (i + 1) rest

/-- On a non-empty segment list, the `"\n".join` of the flat SRT line list
is the concatenation of the full `\n\n`-terminated blocks with the final
newline missing: appending one `"\n"` recovers the block concatenation. -/
theorem srt_join_blocks (segs : List Segment) (h : segs ≠ []) :
    ∀ i : Nat,
      String.intercalate "\n" (srt_lines i segs) ++ "\n" =
        srtConcatBlocks i segs := by
  induction segs with
  | nil => cases h rfl
  | cons s rest ih =>
    intro i
    cases rest with
    | nil =>
      simp [srt_lines, srtConcatBlocks, srtBlock, intercalate_eq_joinSep,
        joinSep, String.append_assoc]
    | cons r rs =>
      have hrec := ih (by simp) (i + 1)
      rw [intercalate_eq_joinSep] at hrec ⊢
      simp only [srt_lines, srtConcatBlocks, srtBlock, joinSep] at hrec ⊢
      rw [← hrec]
      simp [← String.append_assoc]

/-- C1 counterexample: on the example segment list, the local backend's
`srt` output is not the claimed string ending in two newlines — the code's
`"\n".join` of the flat line list leaves only one newline after the final
block. -/
theorem transcribe_local_srt_counterexample :
    ((Transcriber.mk "local" none none true).transcribe (fun _ => true)
        "a.mp3" "srt" ⟨"r"⟩ [⟨0, 1500, "hello"⟩, ⟨1500, 3250, "world"⟩]).result ≠
      .ok (.text
        "1\n00:00:00.000 --> 00:00:01.500\nhello\n\n2\n00:00:01.500 --> 00:00:03.250\nworld\n\n") := by
  decide

/-- C1 (amended): on the local backend, the `srt` shape is the in-order
concatenation of blocks `<index>\n<start> --> <end>\n<trimmed text>\n\n`
except that the second trailing newline of the final block is absent:
appending one `"\n"` to the output recovers the exact block concatenation,
and on the example segment list the output is the claimed string with a
single (not double) trailing newline after the last block. -/
theorem transcribe_local_srt_amended (t : Transcriber) (fs : String → Bool)
    (audio_path : String) (resp : OpenAIResponse) (segments : List Segment)
    (hb : t.backend = "local") (hm : t.model = true) (hfs : fs audio_path = true)
    (hne : segments ≠ []) :
    (t.transcribe fs audio_path "srt" resp segments).result =
      .ok (.text (String.intercalate "\n" (srt_lines 1 segments))) ∧
    String.intercalate "\n" (srt_lines 1 segments) ++ "\n" =
      srtConcatBlocks 1 segments ∧
    (t.transcribe fs audio_path "srt" resp
        [⟨0, 1500, "hello"⟩, ⟨1500, 3250, "world"⟩]).result =
      .ok (.text
        "1\n00:00:00.000 --> 00:00:01.500\nhello\n\n2\n00:00:01.500 --> 00:00:03.250\nworld\n") := by
  refine ⟨?_, srt_join_blocks segments hne 1, ?_⟩
  · simp [Transcriber.transcribe, Transcriber.transcribe_local, hb, hm, hfs]
  · simp [Transcriber.transcribe, Transcriber.transcribe_local, hb, hm, hfs]
    rfl

/-- Witness for C1 (amended) at a concrete local-backend transcriber. -/
theorem transcribe_local_srt_amended_witness :
    ((Transcriber.mk "local" none none true).transcribe (fun _ => true)
        "a.mp3" "srt" ⟨"r"⟩ [⟨0, 1500, "hello"⟩, ⟨1500, 3250, "world"⟩]).result =
      .ok (.text
        "1\n00:00:00.000 --> 00:00:01.500\nhello\n\n2\n00:00:01.500 --> 00:00:03.250\nworld\n") :=
  (transcribe_local_srt_amended (Transcriber.mk "local" none none true)
    (fun _ => true) "a.mp3" ⟨"r"⟩ [⟨0, 1500, "hello"⟩, ⟨1500, 3250, "world"⟩]
    rfl rfl rfl (by decide)).2.2

/-- The outcome of one `download_audio` call, instrumented with whether
the download step (`ydl.download`) was invoked. -/
structure DownloadTrace where
  result : Except String String
  downloadInvoked : Bool
deriving DecidableEq, Repr

/-- `YouTubeDownloader.download_audio(url, preferred_format)`:
`ydl.extract_info(url, download=False)` resolves the metadata first to get
the stable `video_id`; the deterministic output path is
`os.path.join(output_dir, video_id + "." + preferred_format)`; the
download runs only when no file exists at that path; any engine failure is
wrapped in `RuntimeError("Failed to download audio: ...")`.  The metadata
and download engines are oracles `extract_info` and `download`. -/
def download_audio (output_dir : String)
    (extract_info : String → Except String String)
    (download : String → Except String Unit)
    (fs : String → Bool) (url : String) (preferred_format : String) :
    DownloadTrace :=
  match extract_info url with
  | .error e => ⟨.error ("Failed to download audio: " ++ e), false⟩
  | .ok video_id =>
    let output_path := output_dir ++ "/" ++ video_id ++ "." ++ preferred_format
    if fs output_path then ⟨.ok output_path, false⟩
    else
      match download url with
      | .error e => ⟨.error ("Failed to download audio: " ++ e), true⟩
      | .ok _ => ⟨.ok output_path, true⟩

/-- C6: `download_audio` resolves metadata first, computes the
deterministic path from the identifier and format, returns it without
invoking the download step when a file already exists there, and
otherwise downloads and returns the same deterministic path. -/
theorem download_audio_idempotent (output_dir : String)
    (extract_info : String → Except String String)
    (download : String → Except String Unit) (fs : String → Bool)
    (url preferred_format video_id : String)
    (hinfo : extract_info url = .ok video_id) :
    (fs (output_dir ++ "/" ++ video_id ++ "." ++ preferred_format) = true →
      download_audio output_dir extract_info download fs url preferred_format =
        ⟨.ok (output_dir ++ "/" ++ video_id ++ "." ++ preferred_format), false⟩) ∧
    (fs (output_dir ++ "/" ++ video_id ++ "." ++ preferred_format) = false →
      download url = .ok () →
      download_audio output_dir extract_info download fs url preferred_format =
        ⟨.ok (output_dir ++ "/" ++ video_id ++ "." ++ preferred_format), true⟩) := by
  constructor
  · intro hfs
    simp [download_audio, hinfo, hfs]
  · intro hfs hdl
    simp [download_audio, hinfo, hfs, hdl]

/-- Witness for C6: an already-present file is returned without a
download; a missing file triggers exactly one download to the same path. -/
theorem download_audio_idempotent_witness :
    download_audio "/tmp" (fun _ => .ok "vid123") (fun _ => .ok ())
        (fun p => p == "/tmp/vid123.mp3") "u" "mp3" =
      ⟨.ok "/tmp/vid123.mp3", false⟩ ∧
    download_audio "/tmp" (fun _ => .ok "vid123") (fun _ => .ok ())
        (fun _ => false) "u" "mp3" =
      ⟨.ok "/tmp/vid123.mp3", true⟩ := by
  constructor
  · exact (download_audio_idempotent "/tmp" (fun _ => .ok "vid123")
      (fun _ => .ok ()) (fun p => p == "/tmp/vid123.mp3") "u" "mp3" "vid123"
      rfl).1 rfl
  · exact (download_audio_idempotent "/tmp" (fun _ => .ok "vid123")
      (fun _ => .ok ()) (fun _ => false) "u" "mp3" "vid123" rfl).2 rfl rfl

/-- `YouTubeDownloader.cleanup(filepath)`: `os.remove` runs only when the
file exists, and an `OSError` from it is caught and downgraded to a
printed warning.  The result is the new filesystem plus whether a warning
was printed; the catch-all of `OSError` is what makes the return type
total (no error case): cleanup never raises. -/
def cleanup (fs : String → Bool) (remove : String → Except String Unit)
    (filepath : String) : (String → Bool) × Bool :=
  if fs filepath then
    match remove filepath with
    | .ok _ => (fun p => if p == filepath then false else fs p, false)
    | .error _ => (fs, true)
  else (fs, false)

/-- C7: cleanup never raises (its type is total for every deletion
oracle): on a non-existent file it is a warning-free no-op; on an existing
file whose deletion succeeds, a subsequent existence check on that path
returns false and no warning is printed; a failing deletion is downgraded
to a warning with the filesystem unchanged, never an error. -/
theorem cleanup_never_raises (fs : String → Bool)
    (remove : String → Except String Unit) (filepath : String) :
    (fs filepath = false → cleanup fs remove filepath = (fs, false)) ∧
    (fs filepath = true → remove filepath = .ok () →
      (cleanup fs remove filepath).1 filepath = false ∧
      (cleanup fs remove filepath).2 = false) ∧
    (fs filepath = true → ∀ e : String, remove filepath = .error e →
      cleanup fs remove filepath = (fs, true)) := by
  refine ⟨fun h => ?_, fun h hrm => ?_, fun h e hrm => ?_⟩
  · simp [cleanup, h]
  · constructor <;> simp [cleanup, h, hrm]
  · simp [cleanup, h, hrm]

/-- Witness for C7: concrete no-op, successful removal, and downgraded
failure. -/
theorem cleanup_never_raises_witness :
    cleanup (fun _ => false) (fun _ => .ok ()) "gone.mp3" =
      ((fun _ => false : String → Bool), false) ∧
    (cleanup (fun _ => true) (fun _ => .ok ()) "here.mp3").1 "here.mp3" = false ∧
    cleanup (fun _ => true) (fun _ => .error "EPERM") "locked.mp3" =
      ((fun _ => true : String → Bool), true) := by
  refine ⟨?_, ?_, ?_⟩
  · exact (cleanup_never_raises (fun _ => false) (fun _ => .ok ()) "gone.mp3").1 rfl
  · exact ((cleanup_never_raises (fun _ => true) (fun _ => .ok ()) "here.mp3").2.1
      rfl rfl).1
  · exact (cleanup_never_raises (fun _ => true) (fun _ => .error "EPERM")
      "locked.mp3").2.2 rfl "EPERM" rfl

/-- C8 counterexample: constructing the orchestrator for the placeholder
("ollama") backend succeeds with no error of any kind — in particular it
does not raise `Unsupported`, an error that exists nowhere in the code —
and invoking it on an existing audio file fails with the `AttributeError`
of the never-assigned local model, again not `Unsupported`. -/
theorem placeholder_unsupported_counterexample :
    Transcriber.init "ollama" none none (fun _ => none) false =
      .ok { backend := "ollama", language := none, api_key := none,
            model := false } ∧
    ((Transcriber.mk "ollama" none none false).transcribe (fun _ => true)
        "a.mp3" "txt" ⟨"r"⟩ []).result = .error .attributeError := by
  constructor <;> rfl

/-- C8 (amended): the placeholder ("ollama") backend constructs without
any validation error, and it never produces a transcript: every
`transcribe` invocation on the constructed instance fails, with
`AudioNotFound` when the audio file is missing and otherwise with the
`AttributeError` of the never-assigned local model — not with an
`Unsupported` error, which the code does not define. -/
theorem placeholder_never_transcribes (api_key language : Option String)
    (env : String → Option String) (fw : Bool) :
    Transcriber.init "ollama" api_key language env fw =
      .ok { backend := "ollama", language := language, api_key := none,
            model := false } ∧
    (∀ (fs : String → Bool) (audio_path output_format : String)
        (resp : OpenAIResponse) (segments : List Segment),
      ((Transcriber.mk "ollama" language none false).transcribe fs audio_path
          output_format resp segments).result =
            .error (.audioNotFound audio_path) ∨
      ((Transcriber.mk "ollama" language none false).transcribe fs audio_path
          output_format resp segments).result = .error .attributeError) := by
  constructor
  · rfl
  · intro fs audio_path output_format resp segments
    by_cases hfs : fs audio_path = true
    · right
      simp [Transcriber.transcribe, Transcriber.transcribe_local, hfs]
    · left
      simp [Transcriber.transcribe, Bool.eq_false_iff.mpr hfs]

/-- Witness for C8 (amended) at concrete inputs on both branches. -/
theorem placeholder_never_transcribes_witness :
    Transcriber.init "ollama" none none (fun _ => none) true =
      .ok { backend := "ollama", language := none, api_key := none,
            model := false } ∧
    (((Transcriber.mk "ollama" none none false).transcribe (fun _ => true)
        "a.mp3" "srt" ⟨"r"⟩ []).result = .error (.audioNotFound "a.mp3") ∨
      ((Transcriber.mk "ollama" none none false).transcribe (fun _ => true)
        "a.mp3" "srt" ⟨"r"⟩ []).result = .error .attributeError) := by
  have h := placeholder_never_transcribes none none (fun _ => none) true
  exact ⟨h.1, h.2 (fun _ => true) "a.mp3" "srt" ⟨"r"⟩ []⟩
